import Mathlib

set_option maxRecDepth 4000

namespace TechConnect

/-! Shallow embedding of the TechConnect Flask application (src/app.py).

The relational store (`user_queries.py` / `post_queries.py`) and the form
helpers (`helper.py`) are repository modules that are not present under
src/; where a definition stands in for one of them it carries a doc
comment starting with `Modelled from the spec:`.  Everything else is a
direct translation of the handlers in src/app.py. -/

/-! ## Data model -/

/-- A row of the post table: id, content fields, author, creation order
(recency). -/
structure Post where
  pid : Nat
  header : String
  post_type : String
  host_name : String
  target_audience : String
  job_role : String
  job_level : String
  post_body : String
  posted_by : Nat
  created : Nat
deriving DecidableEq

/-- An attachment record: filename plus owning post reference. -/
structure FileRecord where
  post_id : Nat
  filename : String
deriving DecidableEq

/-- A profile-picture record: filename keyed by user id. -/
structure PicFile where
  uid : Nat
  filename : String
deriving DecidableEq

/-- A user profile row: identity plus optional descriptive attributes
(a representative subset of the columns used by the handlers). -/
structure Profile where
  uid : Nat
  name : String
  class_year : Option String
  major : Option String
  minor : Option String
  job_title : Option String
  is_interested_in_mentorship : Option Bool
deriving DecidableEq

/-- The relational store: user profiles, posts, post attachments and
profile-picture records, plus the next fresh post id. -/
structure DB where
  profiles : List Profile
  posts : List Post
  postFiles : List FileRecord
  picFiles : List PicFile
  nextPid : Nat
deriving DecidableEq

/-- The Flask session: each key is present (`some`) or absent (`none`),
mirroring `'user_id' in session` / `session.pop`. -/
structure Session where
  user_id : Option Nat
  username : Option String
  logged_in : Option Bool
deriving DecidableEq

/-- Store operations performed by a handler on the user tables, recorded as
a trace so that "the handler performs no store read or mutation" is
stateable even when the operation happens to change nothing. -/
inductive StoreOp where
  | deleteUser (uid : Option Nat)
  | serveProfilePicture (uid : Option Nat)
  | deleteProfilePic (uid : Option Nat)
deriving DecidableEq

/-- Whole application state threaded through a request: the store, the
upload filesystem (list of existing paths), the session, the flashed
messages and the trace of user-table store calls. -/
structure AppState where
  db : DB
  fs : List String
  session : Session
  flashes : List String
  trace : List StoreOp
deriving DecidableEq

/-- The response a handler produces. `serverError` stands for an uncaught
Python exception (Flask answers 500). -/
inductive Response where
  | redirect (endpoint : String)
  | render (template : String)
  | renderPost (post_id : Nat) (info : Post) (files : List FileRecord)
  | renderSearchPosts (filtered : List Post) (recent : List Post)
  | sendFile (dir : String) (filename : String)
  | serverError
deriving DecidableEq

/-- Python exceptions raised by the code that a handler catches. -/
inductive PyError where
  | valueError (msg : String)
  | indexError
  | osError
  | attributeError
deriving DecidableEq

/-- str(e) as used by `flash(str(e))`. -/
def pyErrorStr : PyError → String
  | PyError.valueError m => m
  | PyError.indexError => "list index out of range"
  | PyError.osError => "file not found"
  | PyError.attributeError => "attribute error"

/-- HTTP method of a request. -/
inductive Method where
  | get
  | post
deriving DecidableEq

/-! ## Small helpers shared by the handlers -/

/-- flask.flash: append a message to the flashed messages. -/
def flash (st : AppState) (m : String) : AppState :=
  {st with flashes := st.flashes ++ [m]}

/-- app.config values for the two upload directories. -/
def PROFILE_UPLOADS : String := "uploads/profile_pic_uploads"

def POST_UPLOADS : String := "uploads/post_uploads"

/-- is_logged_in from app.py: true iff the session holds a user_id.  (When
false the Python helper also flashes; that flash is modelled at each call
site by `notLoggedIn`.) -/
def is_logged_in (s : Session) : Bool := s.user_id.isSome

/-- The combined effect of a handler returning
`redirect(url_for('index'))` after `is_logged_in()` returned False
(which flashed the expiry message). -/
def notLoggedIn (st : AppState) : AppState × Response :=
  (flash st "Session has expired or you are not logged in.",
   Response.redirect "index")

/-- url_for('post', post_id=pid). -/
def postUrl (pid : Nat) : String := "post/" ++ toString pid

/-! ## String helpers (case-insensitive substring match, extension) -/

/-- Is `pre` a prefix of `l`? -/
def charListPre : List Char → List Char → Bool
  | [], _ => true
  | _ :: _, [] => false
  | a :: as, b :: bs => a == b && charListPre as bs

/-- Does `needle` occur as a contiguous sublist of the second argument? -/
def charListSub (needle : List Char) : List Char → Bool
  | [] => needle.isEmpty
  | c :: rest => charListPre needle (c :: rest) || charListSub needle rest

/-- Case-insensitive substring test (SQL LIKE with surrounding wildcards
on lower-cased operands). -/
def strContainsCI (hay needle : String) : Bool :=
  charListSub needle.toLower.toList hay.toLower.toList

/-- The characters after the last '.': tracks Python
`filename.rsplit('.', 1)[1]`, which raises IndexError (here: `none`) when
the name contains no dot. -/
def extAfterDot : List Char → Option (List Char) → Option (List Char)
  | [], acc => acc
  | c :: rest, acc =>
    if c = '.' then extAfterDot rest (some [])
    else extAfterDot rest (acc.map (fun l => l ++ [c]))

/-- `filename.rsplit('.', 1)[1].lower()` — `none` when there is no dot
(IndexError in Python). -/
def lastExt (filename : String) : Option String :=
  (extAfterDot filename.toList none).map
    (fun l => String.mk (l.map Char.toLower))

/-- Werkzeug collaborator `secure_filename`: sanitizes a filename.  The
claims do not depend on the sanitization, so it is modelled as the
identity. -/
def secure_filename (s : String) : String := s

/-! ## Sorting by recency (descending creation order) -/

/-- Insert a post into a recency-descending list. -/
def insertDesc (p : Post) : List Post → List Post
  | [] => [p]
  | q :: t => if q.created ≤ p.created then p :: q :: t else q :: insertDesc p t

/-- Sort posts by creation order, most recent first. -/
def sortByCreatedDesc : List Post → List Post
  | [] => []
  | p :: t => insertDesc p (sortByCreatedDesc t)

/-! ## Store functions from post_queries.py / user_queries.py
(not under src/; modelled from the spec) -/

/-- Modelled from the spec: `post_queries.get_latest_posts` is not under
src/; per the spec it returns the n most recent posts overall (recency
descending). -/
def get_latest_posts (db : DB) (n : Nat) : List Post :=
  (sortByCreatedDesc db.posts).take n

/-- Does a post match the optional search filters?  Per the spec: query is
a case-insensitive substring of header OR body; target audience and post
type are exact matches; host name and job role are substring matches; an
absent filter contributes no clause. -/
def postMatches (q ta ty host role : Option String) (p : Post) : Bool :=
  (match q with
   | none => true
   | some s => strContainsCI p.header s || strContainsCI p.post_body s) &&
  (match ta with
   | none => true
   | some s => p.target_audience == s) &&
  (match ty with
   | none => true
   | some s => p.post_type == s) &&
  (match host with
   | none => true
   | some s => strContainsCI p.host_name s) &&
  (match role with
   | none => true
   | some s => strContainsCI p.job_role s)

/-- Modelled from the spec: `post_queries.search_posts` is not under src/;
per the spec it builds a conjunctive filter from the supplied parameters
and returns the matching posts ordered by recency descending. -/
def post_db_search_posts (db : DB) (q ta ty host role : Option String) :
    List Post :=
  sortByCreatedDesc (db.posts.filter (postMatches q ta ty host role))

/-- Modelled from the spec: `post_queries.get_post_info` is not under src/;
it is a row lookup of a post by id in the relational store. -/
def get_post_info (db : DB) (pid : Nat) : Option Post :=
  db.posts.find? (fun p => p.pid == pid)

/-- Modelled from the spec: `post_queries.serve_post_file` is not under
src/; it returns the attachment records owned by the post. -/
def serve_post_file (db : DB) (pid : Nat) : List FileRecord :=
  db.postFiles.filter (fun f => f.post_id == pid)

/-- Modelled from the spec: `post_queries.format_post_values` is not under
src/; it formats a stored post row for display.  It dereferences the
row's fields, so on a missing row (Python `None`) it raises instead of
returning; the handler models that case explicitly.  The formatting
itself is display-only and modelled as the identity on the row. -/
def format_post_values (p : Post) : Post := p

/-- Modelled from the spec: `post_queries.create_post` is not under src/;
per the spec it assigns a new identifier and creation order, inserts the
post row, and returns the new id.  Argument order follows the call in
app.py. -/
def post_db_create_post (db : DB)
    (header target_audience job_role job_level host_name post_type : String)
    (uid : Nat) (post_body : String) : DB × Nat :=
  let pid := db.nextPid
  let p : Post :=
    { pid := pid, header := header, post_type := post_type,
      host_name := host_name, target_audience := target_audience,
      job_role := job_role, job_level := job_level, post_body := post_body,
      posted_by := uid, created := pid }
  ({db with posts := db.posts ++ [p], nextPid := pid + 1}, pid)

/-- Modelled from the spec: `post_queries.upload_post_file` is not under
src/; it inserts an attachment record (owning post, filename). -/
def upload_post_file (db : DB) (pid : Nat) (filename : String) : DB :=
  {db with postFiles := db.postFiles ++ [⟨pid, filename⟩]}

/-- Modelled from the spec: `post_queries.edit_post` is not under src/; per
the spec it computes a diff between the supplied fields and the stored
fields, applies only the changed fields, and returns the changed-field
names.  With no changed field it applies nothing. -/
def post_db_edit_post (db : DB) (pid : Nat) (stored : Post)
    (header post_type host_name target_audience job_role job_level
     post_body : String) : DB × List String :=
  let changed :=
    (if header ≠ stored.header then ["header"] else []) ++
    (if post_type ≠ stored.post_type then ["post_type"] else []) ++
    (if host_name ≠ stored.host_name then ["host_name"] else []) ++
    (if target_audience ≠ stored.target_audience then ["target_audience"] else []) ++
    (if job_role ≠ stored.job_role then ["job_role"] else []) ++
    (if job_level ≠ stored.job_level then ["job_level"] else []) ++
    (if post_body ≠ stored.post_body then ["post_body"] else [])
  let newPost : Post :=
    {stored with header := header, post_type := post_type,
                 host_name := host_name, target_audience := target_audience,
                 job_role := job_role, job_level := job_level,
                 post_body := post_body}
  (if changed = [] then db
   else {db with posts := db.posts.map (fun p => if p.pid == pid then newPost else p)},
   changed)

/-- Modelled from the spec: `post_queries.delete_post` is not under src/;
per the spec it deletes the post row and cascades to its attachment
records. -/
def post_db_delete_post (db : DB) (pid : Nat) : DB :=
  {db with posts := db.posts.filter (fun p => !(p.pid == pid)),
           postFiles := db.postFiles.filter (fun f => !(f.post_id == pid))}

/-- Modelled from the spec: `post_queries.delete_post_file` is not under
src/; it deletes one attachment record of the post. -/
def post_db_delete_post_file (db : DB) (pid : Nat) (filename : String) : DB :=
  {db with postFiles :=
    db.postFiles.filter (fun f => !(f.post_id == pid && f.filename == filename))}

/-- Modelled from the spec: `user_queries.get_profile` is not under src/;
it is a row lookup of a user profile by id. -/
def get_profile (db : DB) (uid : Nat) : Option Profile :=
  db.profiles.find? (fun pr => pr.uid == uid)

/-- Set every optional attribute of a profile to null, retaining uid and
name. -/
def nullifyProfile (pr : Profile) : Profile :=
  {pr with class_year := none, major := none, minor := none,
           job_title := none, is_interested_in_mentorship := none}

/-- Modelled from the spec: `user_queries.delete_user` is not under src/;
per the spec (and the handler docstring) it nullifies all profile
attributes of the user, retaining uid and name.  A missing uid (Python
`None` bound in the SQL) matches no row. -/
def user_db_delete_user (db : DB) (uid : Option Nat) : DB :=
  match uid with
  | none => db
  | some u =>
    {db with profiles :=
      db.profiles.map (fun pr => if pr.uid == u then nullifyProfile pr else pr)}

/-- Modelled from the spec: `user_queries.serve_profile_picture` is not
under src/; it returns the user's picture-file record if any.  A missing
uid matches no row. -/
def serve_profile_picture (db : DB) (uid : Option Nat) : Option String :=
  match uid with
  | none => none
  | some u => (db.picFiles.find? (fun r => r.uid == u)).map (fun r => r.filename)

/-- Modelled from the spec: `user_queries.delete_profile_pic` is not under
src/; it deletes the user's picture-file record. -/
def user_db_delete_profile_pic (db : DB) (uid : Option Nat) : DB :=
  match uid with
  | none => db
  | some u => {db with picFiles := db.picFiles.filter (fun r => !(r.uid == u))}

/-! ## Handlers translated from src/app.py -/

/-- app.py `post_file` (route /post_file/<post_id>/<filename>): after the
login gate it serves `filename` from the post-uploads directory.  The
post id received in the URL is never consulted. -/
def post_file (st : AppState) (post_id : Nat) (filename : String) :
    AppState × Response :=
  if is_logged_in st.session then
    (st, Response.sendFile POST_UPLOADS filename)
  else notLoggedIn st

/-- Arguments of the post-search request (request.args; `none` = parameter
absent from the query string). -/
structure SearchPostsArgs where
  user_input : Option String
  target_audience : Option String
  post_type : Option String
  host_name : Option String
  job_role : Option String
deriving DecidableEq

/-- app.py `search_posts` (route /search/posts/): fetches the 10 most
recent posts, normalizes the "none" sentinel of the post-type dropdown to
no-filter, runs the search, and renders both result sets. -/
def search_posts_route (st : AppState) (args : SearchPostsArgs) :
    AppState × Response :=
  if is_logged_in st.session then
    let recent := get_latest_posts st.db 10
    let type_value := if args.post_type = some "none" then none else args.post_type
    let filtered := post_db_search_posts st.db args.user_input
      args.target_audience type_value args.host_name args.job_role
    (st, Response.renderSearchPosts filtered recent)
  else notLoggedIn st

/-- app.py `profile` (route /profile/<user_id>): shows the profile, or
flashes not-found and redirects home when the row is absent.  The
display-only value conversion is omitted from the render payload. -/
def profile_view (st : AppState) (user_id : Nat) : AppState × Response :=
  if is_logged_in st.session then
    match get_profile st.db user_id with
    | some _ => (st, Response.render "profile/view.html")
    | none => (flash st "User profile not found..", Response.redirect "home")
  else notLoggedIn st

/-- app.py `post` (route /post/<post_id>/): renders the post view.  There
is no absent-post check: with no stored row, `format_post_values` /
`post_info['header']` dereference Python `None` and the uncaught
exception yields a 500 (`serverError`). -/
def post_view (st : AppState) (post_id : Nat) : AppState × Response :=
  if is_logged_in st.session then
    match get_post_info st.db post_id with
    | none => (st, Response.serverError)
    | some p =>
      let files := serve_post_file st.db post_id
      (st, Response.renderPost post_id (format_post_values p) files)
  else notLoggedIn st

/-- app.py `save_post_file`: validates the extension of an uploaded file
against the allow-list and, when valid, saves it under
`secure_filename(f"{post_id}_{filename}")` in the post-uploads directory
and returns the new name.  A disallowed extension raises ValueError; a
name without a dot raises IndexError (`rsplit('.', 1)[1]`). -/
def ALLOWED_EXTENSIONS : List String :=
  ["png", "jpg", "jpeg", "webp", "pdf", "doc", "docx", "xls", "xlsx"]

def save_post_file (fs : List String) (filename : String) (post_id : Nat) :
    Except PyError (List String × Option String) :=
  if filename ≠ "" then
    match lastExt filename with
    | none => Except.error PyError.indexError
    | some ext =>
      if ext ∈ ALLOWED_EXTENSIONS then
        let new_filename := secure_filename (toString post_id ++ "_" ++ filename)
        Except.ok ((POST_UPLOADS ++ "/" ++ new_filename) :: fs, some new_filename)
      else
        Except.error (PyError.valueError
          "Invalid file type. Allowed: png, jpg, jpeg, webp, pdf, doc, docx, xls, xlsx.")
  else Except.ok (fs, none)

/-- app.py `delete_post_file`: removes a file from the post-uploads
directory; `os.remove` raises when the file is absent. -/
def delete_post_file (fs : List String) (filename : String) :
    Except PyError (List String) :=
  let file_path := POST_UPLOADS ++ "/" ++ filename
  if file_path ∈ fs then Except.ok (fs.erase file_path)
  else Except.error PyError.osError

/-- The fields of the create-post form, plus the filenames of the uploaded
files (request.files.getlist('file[]')). -/
structure CreatePostForm where
  header : String
  post_type : String
  host_name : String
  target_audience : String
  job_role : String
  job_level : String
  post_body : String
  files : List String
deriving DecidableEq

/-- The `for new_file in new_files` loop of app.py `create_post`, run
inside its try block: each nonempty filename is validated and saved, the
attachment record inserted, and a success message flashed; the first
exception aborts the loop carrying the state reached so far. -/
def uploadFilesLoop (st : AppState) (pid : Nat) :
    List String → Except (AppState × PyError) AppState
  | [] => Except.ok st
  | f :: rest =>
    if f ≠ "" then
      match save_post_file st.fs f pid with
      | Except.error e => Except.error (st, e)
      | Except.ok pr =>
        uploadFilesLoop
          (flash {st with fs := pr.1,
                          db := upload_post_file st.db pid (pr.2.getD "")}
            "File successfully uploaded.")
          pid rest
    else uploadFilesLoop st pid rest

/-- app.py `create_post` (route /create_post/): after the login gate, GET
renders the blank form; POST first inserts the post row via
`post_db.create_post` and only then validates/saves the uploaded files.
A file-validation exception is flashed and answered with a redirect to
request.url; otherwise the new post page is shown. -/
def create_post_route (st : AppState) (method : Method) (form : CreatePostForm) :
    AppState × Response :=
  if is_logged_in st.session then
    if method = Method.get then (st, Response.render "post/create.html")
    else
      let uid := st.session.user_id.getD 0
      let r := post_db_create_post st.db form.header form.target_audience
        form.job_role form.job_level form.host_name form.post_type uid
        form.post_body
      let st2 := {st with db := r.1}
      match uploadFilesLoop st2 r.2 form.files with
      | Except.error pe => (flash pe.1 (pyErrorStr pe.2), Response.redirect "request_url")
      | Except.ok st3 => (st3, Response.redirect (postUrl r.2))
  else notLoggedIn st

/-- The fields of the edit-post form.  `submit_delete` is
`request.form.get('submit') == 'Delete Entire Post'`; `input_file` is the
uploaded file part (`none` = part absent, `some ""` = part present with
no file chosen — a Werkzeug FileStorage is truthy iff its filename is
nonempty); `delete_files` is request.form.getlist('delete_files[]'). -/
structure EditPostForm where
  submit_delete : Bool
  header : String
  post_type : String
  host_name : String
  target_audience : String
  job_role : String
  job_level : String
  post_body : String
  input_file : Option String
  delete_files : List String
deriving DecidableEq

/-- The `for file_name in files_to_delete` loop of app.py `edit_post`:
each iteration deletes the attachment record, then removes the file from
the directory; a failure of the file removal is flashed and the loop
continues (the record deletion has already happened). -/
def deleteFilesLoop (st : AppState) (pid : Nat) : List String → AppState
  | [] => st
  | fn :: rest =>
    let db1 := post_db_delete_post_file st.db pid fn
    match delete_post_file st.fs fn with
    | Except.ok fs1 =>
      deleteFilesLoop
        (flash {st with db := db1, fs := fs1} ("Successfully deleted " ++ fn))
        pid rest
    | Except.error err =>
      deleteFilesLoop
        (flash {st with db := db1}
          ("Error: failed to delete file(s)\n" ++ pyErrorStr err))
        pid rest

/-- The update branch of app.py `edit_post` (inside its try block): delete
requested files, apply the field diff, flash each changed field, then
either upload the new file, or — when nothing at all changed — flash
"No changes were made to the post.".  The no-change test is Python
`not (updates or input_file or input_file.filename or files_to_delete)`:
with the file part present but empty the FileStorage and its filename are
both falsy; with the file part absent (`input_file is None`),
`input_file.filename` raises AttributeError unless `updates` is truthy
and short-circuits, and the outer except answers with the generic
failure message and a redirect home. -/
def edit_post_update (st : AppState) (pid : Nat) (post_info : Post)
    (form : EditPostForm) : AppState × Response :=
  let st1 := deleteFilesLoop st pid form.delete_files
  let r := post_db_edit_post st1.db pid post_info form.header form.post_type
    form.host_name form.target_audience form.job_role form.job_level
    form.post_body
  let st2 := {st1 with db := r.1}
  let st3 := r.2.foldl (fun s field => flash s ("Successfully updated " ++ field ++ "!")) st2
  match form.input_file with
  | some fn =>
    if fn ≠ "" then
      match save_post_file st3.fs fn pid with
      | Except.ok pr =>
        (flash {st3 with fs := pr.1,
                         db := upload_post_file st3.db pid (pr.2.getD "")}
           "File successfully uploaded.",
         Response.redirect (postUrl pid))
      | Except.error e => (flash st3 (pyErrorStr e), Response.redirect "request_url")
    else
      if r.2 = [] ∧ form.delete_files = [] then
        (flash st3 "No changes were made to the post.", Response.redirect (postUrl pid))
      else (st3, Response.redirect (postUrl pid))
  | none =>
    if r.2 = [] then
      (flash st3 ("An unexpected error occurred: " ++
         pyErrorStr PyError.attributeError ++ ". Please try again."),
       Response.redirect "home")
    else (st3, Response.redirect (postUrl pid))

/-- app.py `edit_post` (route /edit/<post_id>): login gate, then the
author check (before any method dispatch), then GET renders the edit
form, the delete submit deletes the post (cascading to attachment
records), and any other POST runs the update branch. -/
def edit_post (st : AppState) (pid : Nat) (method : Method)
    (form : EditPostForm) : AppState × Response :=
  if is_logged_in st.session then
    match get_post_info st.db pid with
    | none => (st, Response.serverError)
    | some post_info =>
      if st.session.user_id ≠ some post_info.posted_by then
        (flash st "Access denied: Only post author is authorized to edit this post.",
         Response.redirect (postUrl pid))
      else if method = Method.get then
        (st, Response.render "post/edit.html")
      else if form.submit_delete then
        (flash {st with db := post_db_delete_post st.db pid}
           ("Post(" ++ post_info.header ++ ") was deleted successfully"),
         Response.redirect "home")
      else edit_post_update st pid post_info form
  else notLoggedIn st

/-- The except branch of app.py `delete_profile`: the KeyError from a
session.pop is caught, the failure message flashed, and then
`redirect(url_for('profile'))` itself raises BuildError (the profile
endpoint requires user_id), so Flask answers 500. -/
def deleteProfileExcept (st : AppState) : AppState × Response :=
  (flash st "Something went wrong while deleting your account. Please try again.",
   Response.serverError)

/-- app.py `delete_profile` (route /profile/delete/): performs NO login
check.  It reads user_id from the session (possibly absent), calls
`user_db.delete_user`, fetches the picture record, and removes picture
file and record only when the file exists on disk; then it pops the
three session keys in order (a missing key raises KeyError into the
except branch) and redirects to the welcome page. -/
def delete_profile (st : AppState) : AppState × Response :=
  let user_id := st.session.user_id
  let st1 : AppState :=
    {st with db := user_db_delete_user st.db user_id,
             trace := st.trace ++ [StoreOp.deleteUser user_id]}
  let result := serve_profile_picture st1.db user_id
  let st2 : AppState :=
    {st1 with trace := st1.trace ++ [StoreOp.serveProfilePicture user_id]}
  let st3 : AppState :=
    match result with
    | none => st2
    | some filename =>
      let picture_path := PROFILE_UPLOADS ++ "/" ++ filename
      if picture_path ∈ st2.fs then
        {st2 with fs := st2.fs.erase picture_path,
                  db := user_db_delete_profile_pic st2.db user_id,
                  trace := st2.trace ++ [StoreOp.deleteProfilePic user_id]}
      else st2
  match st3.session.username with
  | none => deleteProfileExcept st3
  | some _ =>
    let st4 : AppState := {st3 with session := {st3.session with username := none}}
    match st4.session.user_id with
    | none => deleteProfileExcept st4
    | some _ =>
      let st5 : AppState := {st4 with session := {st4.session with user_id := none}}
      match st5.session.logged_in with
      | none => deleteProfileExcept st5
      | some _ =>
        let st6 : AppState := {st5 with session := {st5.session with logged_in := none}}
        (flash st6 "Your account has been successfully deleted. We’re sorry to see you go.",
         Response.redirect "index")

/-! ## The form-value normalizer (helper.py; not under src/) -/

/-- A form value after normalization: still a string, a real boolean, or
null. -/
inductive FormValue where
  | str (s : String)
  | boolean (b : Bool)
  | null
deriving DecidableEq

/-- Per-field action of `helper.convert_to_bool` (see `convert_to_bool`). -/
def convBoolField (boolFields : List String) (kv : String × FormValue) :
    String × FormValue :=
  if kv.1 ∈ boolFields then
    match kv.2 with
    | FormValue.str s => (kv.1, FormValue.boolean (s == "true" || s == "on"))
    | _ => kv
  else kv

/-- Modelled from the spec: `helper.convert_to_bool` is not under src/;
per the spec it coerces each boolean-typed field of the mapping:
"true" or "on" becomes true, any other string becomes false; other
fields are untouched. -/
def convert_to_bool (boolFields : List String)
    (data : List (String × FormValue)) : List (String × FormValue) :=
  data.map (convBoolField boolFields)

/-- Per-field action of `helper.convert_to_None` (see `convert_to_None`). -/
def convNoneField (optFields : List String) (kv : String × FormValue) :
    String × FormValue :=
  if kv.1 ∈ optFields then
    match kv.2 with
    | FormValue.str s =>
      if s == "" || s == "None" then (kv.1, FormValue.null) else kv
    | _ => kv
  else kv

/-- Modelled from the spec: `helper.convert_to_None` is not under src/;
per the spec it coerces, for each optional field, the empty string and
the literal string "None" to null; other fields are untouched. -/
def convert_to_None (optFields : List String)
    (data : List (String × FormValue)) : List (String × FormValue) :=
  data.map (convNoneField optFields)

/-- The per-field mapping the specification claims for the composed
normalizer (convert_to_bool then convert_to_None, as applied by
profile_setup and update_profile in app.py): boolean-typed fields get
"true"/"on" mapped to true and any other string to false; optional
fields get "" and "None" mapped to null; all other fields pass through
unchanged. -/
def claimedNormalizerRule (boolFields optFields : List String)
    (kv : String × FormValue) : String × FormValue :=
  if kv.1 ∈ boolFields then
    match kv.2 with
    | FormValue.str s => (kv.1, FormValue.boolean (s == "true" || s == "on"))
    | _ => kv
  else if kv.1 ∈ optFields then
    match kv.2 with
    | FormValue.str s =>
      if s == "" || s == "None" then (kv.1, FormValue.null) else kv
    | _ => kv
  else kv

/-! ## Concrete example states and inputs -/

/-- A logged-in session for user 7. -/
def sessionU7 : Session := ⟨some 7, some "alice", some true⟩

/-- The empty store. -/
def dbEmpty : DB := ⟨[], [], [], [], 1⟩

/-- Logged-in state over the empty store. -/
def stEmptyDb : AppState := ⟨dbEmpty, [], sessionU7, [], []⟩

/-- A create-post form carrying one attachment with a disallowed
extension. -/
def formExe : CreatePostForm :=
  ⟨"Networking Night", "event", "ACM", "students", "", "", "details",
   ["virus.exe"]⟩

/-- A store holding one fully-populated profile for user 5. -/
def dbBob : DB :=
  ⟨[⟨5, "Bob", some "2025", some "CS", none, some "Engineer", some true⟩],
   [], [], [], 1⟩

/-- A request state with an empty session (nobody logged in). -/
def stNoSession : AppState := ⟨dbBob, [], ⟨none, none, none⟩, [], []⟩

/-- A post authored by user 5. -/
def postByBob : Post :=
  ⟨1, "Networking Night", "event", "ACM", "students", "", "",
   "networking tips inside", 5, 1⟩

/-- A second post, authored by user 7, more recent than `postByBob`. -/
def postByAlice : Post :=
  ⟨2, "Summer Internship", "job", "TechCorp", "students", "SWE", "intern",
   "apply now", 7, 2⟩

/-- A store holding the two posts and one attachment record owned by
post 2. -/
def dbPosts : DB :=
  ⟨[], [postByBob, postByAlice], [⟨2, "2_report.pdf"⟩], [], 3⟩

/-- Logged-in state (user 7) over `dbPosts`, with post 2's attachment
present in the uploads directory. -/
def stPosts : AppState :=
  ⟨dbPosts, [POST_UPLOADS ++ "/" ++ "2_report.pdf"], sessionU7, [], []⟩

/-- Search arguments: all filters absent. -/
def argsNone : SearchPostsArgs := ⟨none, none, none, none, none⟩

/-- Search arguments: a text query plus an audience filter. -/
def argsQuery : SearchPostsArgs :=
  ⟨some "networking", some "students", none, none, none⟩

/-- An edit form resubmitting exactly the stored values of `postByAlice`,
with the file part present but empty and no deletion requested. -/
def formNoChange : EditPostForm :=
  ⟨false, "Summer Internship", "job", "TechCorp", "students", "SWE",
   "intern", "apply now", some "", []⟩

/-- A store where user 7 has a picture record whose file is missing from
the filesystem. -/
def dbPicNoFile : DB :=
  ⟨[⟨7, "Alice", some "2026", some "CS", some "Math", none, some false⟩],
   [], [], [⟨7, "7.png"⟩], 1⟩

/-- Logged-in state (user 7) over `dbPicNoFile` with an empty
filesystem. -/
def stPicNoFile : AppState := ⟨dbPicNoFile, [], sessionU7, [], []⟩

/-! ## Theorems -/

/-- C2: the claim says every resource-accessing handler, delete_profile
included, checks the login flag before acting and, with no logged-in
user, performs no store access and redirects away.  On a request with an
empty session, delete_profile nevertheless issues the delete_user and
serve_profile_picture store calls and ends in a 500 (the except branch
crashes building the redirect), not in a redirect — matching its own
docstring is the claim, so this is a bug in the code. -/
theorem delete_profile_no_login_gate :
    is_logged_in stNoSession.session = false ∧
    (delete_profile stNoSession).1.trace =
      [StoreOp.deleteUser none, StoreOp.serveProfilePicture none] ∧
    (delete_profile stNoSession).2 = Response.serverError := by
  decide

/-- C4: in the post search, the sentinel post-type value "none" yields
exactly the same handler outcome as an absent post-type parameter, for
every state and every value of the other filters. -/
theorem search_posts_none_sentinel_is_no_filter (st : AppState)
    (args : SearchPostsArgs) :
    search_posts_route st {args with post_type := some "none"} =
    search_posts_route st {args with post_type := none} := by
  unfold search_posts_route
  split <;> simp

/-- C5: every logged-in invocation of the post search renders two result
sets together: the posts matching the supplied filters ordered by
recency descending, and — in a component that does not depend on the
filters — the 10 most recent posts overall. -/
theorem search_posts_returns_both_result_sets (st : AppState)
    (args : SearchPostsArgs) (h : is_logged_in st.session = true) :
    (search_posts_route st args).2 =
      Response.renderSearchPosts
        (sortByCreatedDesc (st.db.posts.filter
          (postMatches args.user_input args.target_audience
            (if args.post_type = some "none" then none else args.post_type)
            args.host_name args.job_role)))
        ((sortByCreatedDesc st.db.posts).take 10) := by
  simp [search_posts_route, h, post_db_search_posts, get_latest_posts]

/-- Witness for C5 at a concrete state and filter set. -/
theorem search_posts_returns_both_result_sets_witness :
    (search_posts_route stPosts argsQuery).2 =
      Response.renderSearchPosts
        (sortByCreatedDesc (stPosts.db.posts.filter
          (postMatches argsQuery.user_input argsQuery.target_audience
            (if argsQuery.post_type = some "none" then none
             else argsQuery.post_type)
            argsQuery.host_name argsQuery.job_role)))
        ((sortByCreatedDesc stPosts.db.posts).take 10) :=
  search_posts_returns_both_result_sets stPosts argsQuery rfl

/-- C7 (counterexample): a view request for an absent post is NOT answered
with a not-found message and a redirect — the handler has no absent-post
check, nothing is flashed, and the request dies with an unhandled error
(500). -/
theorem post_view_absent_post_not_redirected :
    get_post_info stEmptyDb.db 1 = none ∧
    (post_view stEmptyDb 1).2 = Response.serverError ∧
    (post_view stEmptyDb 1).1.flashes = [] := by
  decide

/-- C7 (amended): for a logged-in requester, a profile view of an absent
user flashes the not-found message and redirects to the home view, while
a post view of an absent post fails with an unhandled error instead of
reporting and redirecting. -/
theorem absent_entity_views (st : AppState) (user_id post_id : Nat) (u : Nat)
    (hu : st.session.user_id = some u)
    (hprof : get_profile st.db user_id = none)
    (hpost : get_post_info st.db post_id = none) :
    profile_view st user_id =
      (flash st "User profile not found..", Response.redirect "home") ∧
    post_view st post_id = (st, Response.serverError) := by
  constructor
  · simp [profile_view, is_logged_in, hu, hprof]
  · simp [post_view, is_logged_in, hu, hpost]

/-- Witness for the amended C7 at a concrete state. -/
theorem absent_entity_views_witness :
    profile_view stEmptyDb 1 =
      (flash stEmptyDb "User profile not found..", Response.redirect "home") ∧
    post_view stEmptyDb 1 = (stEmptyDb, Response.serverError) :=
  absent_entity_views stEmptyDb 1 1 7 rfl rfl rfl

/-- C8 (counterexample): the attachment-serving route returns a file whose
attachment record belongs to post 2 although the request named post 1 —
a file of another post is retrievable through the request. -/
theorem post_file_serves_foreign_attachment :
    (post_file stPosts 1 "2_report.pdf").2 =
      Response.sendFile POST_UPLOADS "2_report.pdf" ∧
    FileRecord.mk 2 "2_report.pdf" ∈ stPosts.db.postFiles ∧
    FileRecord.mk 1 "2_report.pdf" ∉ stPosts.db.postFiles := by
  decide

/-- C8 (amended): for every logged-in request, the attachment route serves
exactly the filename named in the URL from the shared post-uploads
directory; the post id in the request and the attachment records are
never consulted, so any stored file — including another post's — is
retrievable under any post id. -/
theorem post_file_ignores_post_id (st : AppState) (post_id : Nat)
    (filename : String) (h : is_logged_in st.session = true) :
    post_file st post_id filename =
      (st, Response.sendFile POST_UPLOADS filename) := by
  simp [post_file, h]

/-- Witness for the amended C8 at a concrete state. -/
theorem post_file_ignores_post_id_witness :
    post_file stPosts 1 "2_report.pdf" =
      (stPosts, Response.sendFile POST_UPLOADS "2_report.pdf") :=
  post_file_ignores_post_id stPosts 1 "2_report.pdf" rfl

/-- C1 (counterexample): a create_post request whose only attachment has
the disallowed extension "exe" is rejected (the validation error is the
only flash), yet the post store is mutated — the post row was inserted
before the file was validated, so the failed operation does not leave
the post store unchanged. -/
theorem create_post_rejected_upload_mutates_post_store :
    ((create_post_route stEmptyDb Method.post formExe).1.db.posts ≠
      stEmptyDb.db.posts) ∧
    (create_post_route stEmptyDb Method.post formExe).1.flashes =
      ["Invalid file type. Allowed: png, jpg, jpeg, webp, pdf, doc, docx, xls, xlsx."] := by
  decide

/-- C1 (amended): an upload with a disallowed extension is rejected before
any attachment record is created — the attachment store, the filesystem
and the profile store are untouched and the validation error is
reported — but the post row, inserted before file validation, remains in
the post store. -/
theorem create_post_rejected_upload_state (st : AppState)
    (form : CreatePostForm) (u : Nat) (f e : String)
    (hu : st.session.user_id = some u)
    (hf : form.files = [f]) (hne : f ≠ "")
    (he : lastExt f = some e) (hbad : e ∉ ALLOWED_EXTENSIONS) :
    create_post_route st Method.post form =
      ({st with
          db := {st.db with
            posts := st.db.posts ++
              [{ pid := st.db.nextPid, header := form.header,
                 post_type := form.post_type, host_name := form.host_name,
                 target_audience := form.target_audience,
                 job_role := form.job_role, job_level := form.job_level,
                 post_body := form.post_body, posted_by := u,
                 created := st.db.nextPid }],
            nextPid := st.db.nextPid + 1},
          flashes := st.flashes ++
            ["Invalid file type. Allowed: png, jpg, jpeg, webp, pdf, doc, docx, xls, xlsx."]},
       Response.redirect "request_url") := by
  simp [create_post_route, is_logged_in, hu, hf, uploadFilesLoop,
        save_post_file, hne, he, hbad, post_db_create_post, flash, pyErrorStr]

/-- Witness for the amended C1 at a concrete state and form. -/
theorem create_post_rejected_upload_state_witness :
    create_post_route stEmptyDb Method.post formExe =
      ({stEmptyDb with
          db := {stEmptyDb.db with
            posts := stEmptyDb.db.posts ++
              [{ pid := stEmptyDb.db.nextPid, header := formExe.header,
                 post_type := formExe.post_type,
                 host_name := formExe.host_name,
                 target_audience := formExe.target_audience,
                 job_role := formExe.job_role, job_level := formExe.job_level,
                 post_body := formExe.post_body, posted_by := 7,
                 created := stEmptyDb.db.nextPid }],
            nextPid := stEmptyDb.db.nextPid + 1},
          flashes := stEmptyDb.flashes ++
            ["Invalid file type. Allowed: png, jpg, jpeg, webp, pdf, doc, docx, xls, xlsx."]},
       Response.redirect "request_url") :=
  create_post_rejected_upload_state stEmptyDb formExe 7 "virus.exe" "exe"
    rfl rfl (by decide) (by decide) (by decide)

/-- C3: a post edit or delete request by a logged-in user who is not the
post's author is refused before any branch of the operation runs: the
state is unchanged apart from the flashed authorization error, and the
requester is redirected back to the post, for every request method and
form content. -/
theorem edit_post_non_author_refused (st : AppState) (pid : Nat)
    (method : Method) (form : EditPostForm) (u : Nat) (p : Post)
    (hu : st.session.user_id = some u)
    (hp : get_post_info st.db pid = some p)
    (hne : u ≠ p.posted_by) :
    edit_post st pid method form =
      (flash st "Access denied: Only post author is authorized to edit this post.",
       Response.redirect (postUrl pid)) := by
  simp [edit_post, is_logged_in, hu, hp, hne]

/-- Witness for C3: user 7 attempting to edit user 5's post. -/
theorem edit_post_non_author_refused_witness :
    edit_post stPosts 1 Method.post formNoChange =
      (flash stPosts "Access denied: Only post author is authorized to edit this post.",
       Response.redirect (postUrl 1)) :=
  edit_post_non_author_refused stPosts 1 Method.post formNoChange 7 postByBob
    rfl rfl (by decide)

/-- C6: an edit request by the author in which every submitted field
equals the stored value, the file part is present but empty, and no file
deletion is requested, completes successfully: the state is unchanged
apart from the distinct "No changes were made to the post." message, and
the requester is redirected to the post page. -/
theorem edit_post_noop_reports_no_changes (st : AppState) (pid : Nat)
    (form : EditPostForm) (u : Nat) (p : Post)
    (hu : st.session.user_id = some u)
    (hp : get_post_info st.db pid = some p)
    (ha : u = p.posted_by)
    (hsd : form.submit_delete = false)
    (h1 : form.header = p.header) (h2 : form.post_type = p.post_type)
    (h3 : form.host_name = p.host_name)
    (h4 : form.target_audience = p.target_audience)
    (h5 : form.job_role = p.job_role) (h6 : form.job_level = p.job_level)
    (h7 : form.post_body = p.post_body)
    (hif : form.input_file = some "") (hdf : form.delete_files = []) :
    edit_post st pid Method.post form =
      (flash st "No changes were made to the post.",
       Response.redirect (postUrl pid)) := by
  simp [edit_post, is_logged_in, hu, hp, ha, hsd, edit_post_update, hdf,
        deleteFilesLoop, post_db_edit_post, h1, h2, h3, h4, h5, h6, h7, hif]

/-- Witness for C6: user 7 resubmitting their post unchanged. -/
theorem edit_post_noop_reports_no_changes_witness :
    edit_post stPosts 2 Method.post formNoChange =
      (flash stPosts "No changes were made to the post.",
       Response.redirect (postUrl 2)) :=
  edit_post_noop_reports_no_changes stPosts 2 formNoChange 7 postByAlice
    rfl rfl rfl rfl rfl rfl rfl rfl rfl rfl rfl rfl rfl

/-- C9: the composed normalizer (string-to-boolean coercion, then
null coercion, as applied by profile_setup and update_profile) maps each
field by exactly the claimed per-field rule: boolean-typed fields get
"true"/"on" mapped to true and any other string to false, optional
fields get "" and "None" mapped to null, and every other field passes
through unchanged. -/
theorem normalizer_matches_claimed_rule (boolFields optFields : List String)
    (data : List (String × FormValue)) :
    convert_to_None optFields (convert_to_bool boolFields data) =
      data.map (claimedNormalizerRule boolFields optFields) := by
  unfold convert_to_None convert_to_bool
  rw [List.map_map]
  congr 1
  funext kv
  by_cases hb : kv.1 ∈ boolFields
  · cases hv : kv.2 <;>
      simp [convBoolField, convNoneField, claimedNormalizerRule, hb, hv]
  · by_cases ho : kv.1 ∈ optFields <;>
      cases hv : kv.2 <;>
        simp [convBoolField, convNoneField, claimedNormalizerRule, hb, ho, hv]

/-- Deleting a user never touches the picture-file table, so the picture
lookup reads the same record before and after. -/
theorem serve_profile_picture_delete_user (db : DB) (a b : Option Nat) :
    serve_profile_picture (user_db_delete_user db a) b =
      serve_profile_picture db b := by
  cases a <;> cases b <;> simp [user_db_delete_user, serve_profile_picture]

/-- C10: when the logged-in user has a picture record whose file is
missing from the filesystem, delete_profile completes — the profile is
nullified, the session cleared, success flashed and the caller
redirected — while the picture record (and the rest of the store beyond
the profile attributes) is left unchanged. -/
theorem delete_profile_keeps_pic_record_when_file_missing (st : AppState)
    (u : Nat) (un : String) (b : Bool) (fn : String)
    (hs : st.session = ⟨some u, some un, some b⟩)
    (hpic : serve_profile_picture st.db (some u) = some fn)
    (hfs : (PROFILE_UPLOADS ++ "/" ++ fn) ∉ st.fs) :
    delete_profile st =
      ({st with
          db := user_db_delete_user st.db (some u),
          session := ⟨none, none, none⟩,
          flashes := st.flashes ++
            ["Your account has been successfully deleted. We’re sorry to see you go."],
          trace := st.trace ++
            [StoreOp.deleteUser (some u), StoreOp.serveProfilePicture (some u)]},
       Response.redirect "index") ∧
    (delete_profile st).1.db.picFiles = st.db.picFiles := by
  have hmain : delete_profile st =
      ({st with
          db := user_db_delete_user st.db (some u),
          session := ⟨none, none, none⟩,
          flashes := st.flashes ++
            ["Your account has been successfully deleted. We’re sorry to see you go."],
          trace := st.trace ++
            [StoreOp.deleteUser (some u), StoreOp.serveProfilePicture (some u)]},
       Response.redirect "index") := by
    simp [delete_profile, hs, serve_profile_picture_delete_user, hpic, hfs, flash]
  refine ⟨hmain, ?_⟩
  rw [hmain]
  cases hdb : st.db
  simp [user_db_delete_user]

/-- Witness for C10 at a concrete state: user 7 with a picture record but
no file on disk. -/
theorem delete_profile_keeps_pic_record_when_file_missing_witness :
    delete_profile stPicNoFile =
      ({stPicNoFile with
          db := user_db_delete_user stPicNoFile.db (some 7),
          session := ⟨none, none, none⟩,
          flashes := stPicNoFile.flashes ++
            ["Your account has been successfully deleted. We’re sorry to see you go."],
          trace := stPicNoFile.trace ++
            [StoreOp.deleteUser (some 7), StoreOp.serveProfilePicture (some 7)]},
       Response.redirect "index") ∧
    (delete_profile stPicNoFile).1.db.picFiles = stPicNoFile.db.picFiles :=
  delete_profile_keeps_pic_record_when_file_missing stPicNoFile 7 "alice" true
    "7.png" rfl rfl (by decide)

end TechConnect
